import Mathlib

/-!
Shallow embedding of asynckeybow (src/asynckeybow/asynckeybow.py) and proofs
about its key sequence classification, timeline buffer, key state registry,
scripted event source and LED command value object.

Python dynamic values are embedded as the inductive `PyVal`; Python exceptions
as `PyErr`; fallible operations return `Except PyErr _`.  Rational numbers
stand in for Python floats (no claim here depends on floating point rounding),
and `Int`/`Nat` for Python integers.
-/

namespace Asynckeybow

/-- The Python classes that appear as runtime values in the fragments we model.
`objectT` and `typeT` are the builtin classes `object` and `type`. -/
inductive PyType
  | intT
  | boolT
  | floatT
  | strT
  | noneT
  | objectT
  | typeT
deriving DecidableEq, Repr

/-- A small universe of Python runtime values: `None`, booleans, integers,
floats (as rationals), strings, and class objects. -/
inductive PyVal
  | none
  | bool (b : Bool)
  | int (n : ℤ)
  | float (q : ℚ)
  | str (s : String)
  | type (t : PyType)
deriving DecidableEq, Repr

/-- The exception classes raised by the modelled code paths.  `keyStateError`,
`ledInterfaceError`, `keyInterfaceError` and `keySequenceListenerError` are the
exception classes declared at the top of asynckeybow.py; the rest are Python
builtins. -/
inductive PyErr
  | typeError
  | valueError
  | indexError
  | keyError
  | keyStateError
  | ledInterfaceError
  | keyInterfaceError
  | keySequenceListenerError
deriving DecidableEq, Repr

/-- Decidable equality for `Except`, needed to evaluate the embedded
operations on concrete inputs. -/
instance {ε α : Type} [DecidableEq ε] [DecidableEq α] :
    DecidableEq (Except ε α) := fun x y =>
  match x, y with
  | .ok a, .ok b =>
    if h : a = b then .isTrue (by rw [h]) else
      .isFalse (fun hc => h (by cases hc; rfl))
  | .error a, .error b =>
    if h : a = b then .isTrue (by rw [h]) else
      .isFalse (fun hc => h (by cases hc; rfl))
  | .ok _, .error _ => .isFalse (fun hc => by cases hc)
  | .error _, .ok _ => .isFalse (fun hc => by cases hc)

/-- Whether `v` is a Python `bool` (the claims speak of "a boolean"). -/
def isBool : PyVal → Bool
  | .bool _ => true
  | _ => false

/-- Whether `v` is a Python class object. -/
def isType : PyVal → Bool
  | .type _ => true
  | _ => false

/-- Python `v == b` for a boolean `b`.  Python compares numeric types by
value across `bool`/`int`/`float` (`True == 1`, `False == 0`); all other
types compare unequal to a boolean. -/
def pyEqBool : PyVal → Bool → Bool
  | .bool b', b => b' == b
  | .int n, b => n == (if b then 1 else 0)
  | .float q, b => q == (if b then 1 else 0)
  | _, _ => false

/-- Python `isinstance(c, t)` where the first argument is the class `c` and
`t` is the classinfo argument.  A class object is an instance of `object` and
of `type` (its metaclass) and of nothing else in our universe. -/
def instanceOfClass (t : PyType) : Bool :=
  t == .objectT || t == .typeT

/-- Python `isinstance(cls, v)` where `cls` is a class used as FIRST argument
and `v` is an arbitrary value used as SECOND argument (the reversed-argument
call that appears in the LEDCommand setters).  When `v` is not a class object,
Python raises `TypeError: isinstance() arg 2 must be a type`.  (Tuples of
classes, also legal second arguments, are outside our value universe.) -/
def pyIsinstance (_cls : PyType) (v : PyVal) : Except PyErr Bool :=
  match v with
  | .type t => .ok (instanceOfClass t)
  | _ => .error .typeError

/-- Python `v < n` against an integer: defined for numeric values, a
`TypeError` for everything else. -/
def pyLtInt (v : PyVal) (n : ℤ) : Except PyErr Bool :=
  match v with
  | .int m => .ok (decide (m < n))
  | .bool b => .ok (decide ((if b then (1 : ℤ) else 0) < n))
  | .float q => .ok (decide (q < (n : ℚ)))
  | _ => .error .typeError

/-- Python `v > n` against an integer: defined for numeric values, a
`TypeError` for everything else. -/
def pyGtInt (v : PyVal) (n : ℤ) : Except PyErr Bool :=
  match v with
  | .int m => .ok (decide (n < m))
  | .bool b => .ok (decide (n < (if b then (1 : ℤ) else 0)))
  | .float q => .ok (decide ((n : ℚ) < q))
  | _ => .error .typeError

/-! ## KeyState (asynckeybow.py, class KeyState) -/

/-- State of `KeyState.__init__`: `_pressed = False`, `_r = _g = _b = 0`.  The pressed
slot stores whatever value the setter accepted (the source assigns `var`
itself), hence `PyVal`; the colour channels pass through `int(var)` in their
setters, hence `ℤ`. -/
structure KeyState where
  pressed : PyVal
  r : ℤ
  g : ℤ
  b : ℤ
deriving DecidableEq, Repr

/-- A fresh KeyState as built by `KeyState.__init__`. -/
def KeyState.init : KeyState :=
  { pressed := .bool false, r := 0, g := 0, b := 0 }

/-- The `pressed` property setter:
`if var not in (True, False): raise KeyStateError(...)` else `_pressed = var`.
Python membership in the tuple `(True, False)` tests `var == True or
var == False`. -/
def setPressed (ks : KeyState) (var : PyVal) : Except PyErr KeyState :=
  if pyEqBool var true || pyEqBool var false then
    .ok { ks with pressed := var }
  else
    .error .keyStateError

/-- Left pad a digit list with the character `0` to width `w`
(the padding performed by the Python format spec 02x). -/
def leftPadZero (w : ℕ) (l : List Char) : List Char :=
  List.replicate (w - l.length) '0' ++ l

/-- Python format(n, 02x): lowercase hexadecimal, zero padded to a minimum
total width of 2 (the sign, when present, counts toward the width and the
padding goes between the sign and the digits). -/
def format02x (n : ℤ) : String :=
  if n < 0 then
    ⟨'-' :: leftPadZero 1 (Nat.toDigits 16 n.natAbs)⟩
  else
    ⟨leftPadZero 2 (Nat.toDigits 16 n.toNat)⟩

/-- The `colourcode` property: the concatenation of the three channels, each
rendered by format(_, 02x). -/
def KeyState.colourcode (ks : KeyState) : String :=
  format02x ks.r ++ format02x ks.g ++ format02x ks.b

/-- Source `is_lit`: `if self.r == self.g == self.b == 0: return False` else `True`.
The chained comparison means `r == g and g == b and b == 0`. -/
def KeyState.is_lit (ks : KeyState) : Bool :=
  if ks.r = ks.g ∧ ks.g = ks.b ∧ ks.b = 0 then false else true

/-- Source `KeyInterface.setup`: `for k in range(keycount): self._state[k] = KeyState()`.
The registry dict with integer keys `0..keycount-1` is modelled as a list
indexed by position. -/
def setupRegistry (keycount : ℕ) : List KeyState :=
  List.replicate keycount KeyState.init

/-- Assignment `self._state[k].pressed = v` for an integer index `k`:
a `KeyError` when `k` is not a key of the registry dict, otherwise the
`pressed` setter runs on that entry. -/
def regSetPressed (reg : List KeyState) (k : ℕ) (v : PyVal) :
    Except PyErr (List KeyState) :=
  if h : k < reg.length then
    (setPressed (reg.get ⟨k, h⟩) v).map (fun ks => reg.set k ks)
  else
    .error .keyError

/-- Read `self._state[k].pressed` for an integer index `k`. -/
def regReadPressed (reg : List KeyState) (k : ℕ) : Except PyErr PyVal :=
  if h : k < reg.length then
    .ok (reg.get ⟨k, h⟩).pressed
  else
    .error .keyError

/-! Specification-side rendering of a colour channel, written independently of
`Nat.toDigits`: one hexadecimal digit per nibble, lowercase. -/

/-- One lowercase hexadecimal digit (specification-side). -/
def specHexDigit : ℕ → Char
  | 0 => '0' | 1 => '1' | 2 => '2' | 3 => '3'
  | 4 => '4' | 5 => '5' | 6 => '6' | 7 => '7'
  | 8 => '8' | 9 => '9' | 10 => 'a' | 11 => 'b'
  | 12 => 'c' | 13 => 'd' | 14 => 'e' | 15 => 'f'
  | _ => '*'

/-- The two zero-padded lowercase hex digits of a channel value below 256
(specification-side). -/
def specHex2 (n : ℕ) : List Char :=
  [specHexDigit (n / 16), specHexDigit (n % 16)]

/-! ## LEDCommand (asynckeybow.py, classes LEDOperation and LEDCommand) -/

/-- Source `class LEDOperation(enum.Enum): OFF, ON, BLINK`. -/
inductive LEDOperation
  | OFF
  | ON
  | BLINK
deriving DecidableEq, Repr

/-- Constructor `LEDCommand.__init__(key_idx, op=BLINK, r=0, g=0, b=0, blink_count=1)`.
All fields are stored as given, so they hold arbitrary Python values. -/
structure LEDCommand where
  key_idx : PyVal
  op : LEDOperation
  r : PyVal
  g : PyVal
  b : PyVal
  blink_count : PyVal
deriving DecidableEq, Repr

/-- An LEDCommand as built by the constructor with the default arguments. -/
def LEDCommand.init (key_idx : PyVal) : LEDCommand :=
  { key_idx := key_idx, op := .BLINK, r := .int 0, g := .int 0, b := .int 0,
    blink_count := .int 1 }

/-- The `r` property setter:
`if not isinstance(int, val) or val < 0 or val > 255: raise LEDInterfaceError`
else `self._r = val`.  Note the reversed isinstance arguments, and that `or`
short-circuits, so the comparisons only run when `isinstance(int, val)` is
`True` (only possible when `val` is a class of which `int` is an instance). -/
def LEDCommand.setR (c : LEDCommand) (val : PyVal) : Except PyErr LEDCommand := do
  let inst ← pyIsinstance .intT val
  if inst = false then
    .error .ledInterfaceError
  else do
    let lt ← pyLtInt val 0
    if lt then
      .error .ledInterfaceError
    else do
      let gt ← pyGtInt val 255
      if gt then
        .error .ledInterfaceError
      else
        .ok { c with r := val }

/-- The `g` property setter: the same guard; its (unreachable) assignment body
is `self._r = val` in the source, so it stores into the `r` slot. -/
def LEDCommand.setG (c : LEDCommand) (val : PyVal) : Except PyErr LEDCommand := do
  let inst ← pyIsinstance .intT val
  if inst = false then
    .error .ledInterfaceError
  else do
    let lt ← pyLtInt val 0
    if lt then
      .error .ledInterfaceError
    else do
      let gt ← pyGtInt val 255
      if gt then
        .error .ledInterfaceError
      else
        .ok { c with r := val }

/-- The `b` property setter: the same guard; its (unreachable) assignment body
is also `self._r = val` in the source. -/
def LEDCommand.setB (c : LEDCommand) (val : PyVal) : Except PyErr LEDCommand := do
  let inst ← pyIsinstance .intT val
  if inst = false then
    .error .ledInterfaceError
  else do
    let lt ← pyLtInt val 0
    if lt then
      .error .ledInterfaceError
    else do
      let gt ← pyGtInt val 255
      if gt then
        .error .ledInterfaceError
      else
        .ok { c with r := val }

/-- The exception class that an r/g/b setter raises for a given argument:
a `TypeError` from `isinstance(int, val)` when `val` is not a class, an
`LEDInterfaceError` when it is a class of which `int` is not an instance,
and a `TypeError` from the comparison `val < 0` when it is a class of which
`int` is an instance (`object` or `type`). -/
def ledSetterErr (v : PyVal) : PyErr :=
  match v with
  | .type t => if instanceOfClass t then .typeError else .ledInterfaceError
  | _ => .typeError

/-! ## KeySequence, timeline buffer and the producer loop
(asynckeybow.py, class KeySequence and class KeySequenceListener) -/

/-- Source `class KeySequence(enum.Enum): SINGLE = 1, HOLD = 2, DOUBLE = 3`. -/
inductive KeySequence
  | SINGLE
  | HOLD
  | DOUBLE
deriving DecidableEq, Repr

/-- A timeline entry `(timestamp, (key_index, pressed))` exactly as appended by
`self._tl.appendleft((time.time(), keypress))`.  The key index is a float
when events come from a script (the script parser converts it with `float`). -/
abbrev TLEntry : Type := ℚ × (ℚ × Bool)

/-- Source `deque([None for x in range(50)], 50)`: the timeline starts as 50 `None`
slots with maximum length 50. -/
def tlInit : List (Option TLEntry) :=
  List.replicate 50 none

/-- Operation `appendleft` on a deque with `maxlen=50`: prepend and drop beyond 50
(the element dropped is the rightmost, i.e. the oldest). -/
def tlPush (e : TLEntry) (tl : List (Option TLEntry)) : List (Option TLEntry) :=
  (some e :: tl).take 50

/-- A sequence of pushes, oldest first. -/
def pushAll (es : List TLEntry) (tl : List (Option TLEntry)) :
    List (Option TLEntry) :=
  es.foldl (fun d e => tlPush e d) tl

/-- The number of real (non-`None`) entries held by the timeline. -/
def countSome (tl : List (Option TLEntry)) : ℕ :=
  (tl.filterMap id).length

/-- Python `int(q)` on a float: truncation toward zero. -/
def pyTrunc (q : ℚ) : ℤ :=
  q.num.tdiv (q.den : ℤ)

/-- One body execution of the loop in `KeySequenceListener.produce` for the
keypress returned by `async_wait`, split by the classification time `tCls`
(the `time.time()` inside the duration computation) and the push time `tPush`
(the `time.time()` in the `appendleft`).  Returns the item put on the queue
(`none` is the empty marker `[]`) together with the updated timeline, or the
exception that propagates out of the loop. -/
def produceStep (listenFor : List KeySequence) (tl : List (Option TLEntry))
    (keypress : ℚ × Bool) (tCls tPush : ℚ) :
    Except PyErr (Option (ℤ × KeySequence) × List (Option TLEntry)) :=
  if keypress.2 then
    .ok (none, tlPush (tPush, keypress) tl)
  else
    match (tl.filterMap id).filter (fun kp => kp.2.1 == keypress.1) with
    | [] => .error .indexError
    | lastAction :: _ =>
      let pressDuration := (tCls - lastAction.1) * 1000
      let result :=
        if 500 < pressDuration ∧ KeySequence.HOLD ∈ listenFor then
          (pyTrunc keypress.1, KeySequence.HOLD)
        else
          (pyTrunc keypress.1, KeySequence.SINGLE)
      .ok (some result, tlPush (tPush, keypress) tl)

/-- Project a step result onto the published item. -/
def stepOut (x : Except PyErr (Option (ℤ × KeySequence) × List (Option TLEntry))) :
    Except PyErr (Option (ℤ × KeySequence)) :=
  x.map Prod.fst

/-- The most recent timeline entry whose key index matches `k`, regardless of
its pressed flag: this is what `key_history[0]` selects in the source. -/
def mostRecentForKey (tl : List (Option TLEntry)) (k : ℚ) : Option TLEntry :=
  (tl.filterMap id).find? (fun kp => kp.2.1 == k)

/-- Specification-side lookup: the most recent timeline entry for key `k`
whose pressed flag is TRUE (the lookup the specification describes). -/
def specMostRecentPressed (tl : List (Option TLEntry)) (k : ℚ) : Option TLEntry :=
  (tl.filterMap id).find? (fun kp => kp.2.1 == k && kp.2.2)

/-! ## The scripted event source
(asynckeybow.py, `KeyInterface.async_wait`, `Implementation.SIMULATED` branch) -/

/-- The whitespace characters Python `str.split()` splits on. -/
def isPySpace (c : Char) : Bool :=
  c == ' ' || c == '\t' || c == '\n' || c == '\r' ||
    c == Char.ofNat 11 || c == Char.ofNat 12

/-- Helper for `pySplit`: walk the characters accumulating the current word
(in reverse). -/
def pySplitAux : List Char → List Char → List String
  | [], [] => []
  | [], acc => [⟨acc.reverse⟩]
  | c :: rest, acc =>
    if isPySpace c then
      match acc with
      | [] => pySplitAux rest []
      | _ => ⟨acc.reverse⟩ :: pySplitAux rest []
    else
      pySplitAux rest (c :: acc)

/-- Python `s.split()` with no separator argument: split on runs of
whitespace, discarding empty words. -/
def pySplit (s : String) : List String :=
  pySplitAux s.data []

/-- Decimal digit test. -/
def isDigitChar (c : Char) : Bool :=
  '0' ≤ c && c ≤ '9'

/-- Value of a list of decimal digit characters. -/
def digitsVal (l : List Char) : ℕ :=
  l.foldl (fun a c => a * 10 + (c.toNat - 48)) 0

/-- Parse the exponent suffix of a float literal (after the `e`/`E`). -/
def pyFloatExp (base : ℚ) (r : List Char) : Option ℚ :=
  let (neg, r) :=
    match r with
    | '+' :: t => (false, t)
    | '-' :: t => (true, t)
    | _ => (false, r)
  let ds := r.takeWhile isDigitChar
  let rest := r.dropWhile isDigitChar
  if ds.isEmpty || !rest.isEmpty then
    none
  else if neg then
    some (base / 10 ^ digitsVal ds)
  else
    some (base * 10 ^ digitsVal ds)

/-- Python `float(s)` restricted to finite decimal literals: optional sign,
digits with at most one decimal point (at least one digit overall), optional
exponent part.  `inf`, `nan`, digit-group underscores and surrounding
whitespace are not modelled; no claim depends on them. -/
def pyFloat (s : String) : Option ℚ :=
  let cs := s.data
  let (sgn, cs) :=
    match cs with
    | '+' :: t => ((1 : ℚ), t)
    | '-' :: t => ((-1 : ℚ), t)
    | _ => ((1 : ℚ), cs)
  let intPart := cs.takeWhile isDigitChar
  let cs := cs.dropWhile isDigitChar
  match cs with
  | [] =>
    if intPart.isEmpty then none else some (sgn * digitsVal intPart)
  | '.' :: rest =>
    let frac := rest.takeWhile isDigitChar
    let rest := rest.dropWhile isDigitChar
    if intPart.isEmpty && frac.isEmpty then
      none
    else
      let base : ℚ := sgn * (digitsVal intPart + digitsVal frac / 10 ^ frac.length)
      match rest with
      | [] => some base
      | 'e' :: r => pyFloatExp base r
      | 'E' :: r => pyFloatExp base r
      | _ => none
  | 'e' :: r =>
    if intPart.isEmpty then none else pyFloatExp (sgn * digitsVal intPart) r
  | 'E' :: r =>
    if intPart.isEmpty then none else pyFloatExp (sgn * digitsVal intPart) r
  | _ => none

/-- Source `(op, arg) = cmd.split()` followed by `arg = float(arg)`: a `ValueError`
when the split does not yield exactly two tokens (tuple unpacking failure) or
when the argument is not numeric (`float` failure). -/
def parseCmd (cmd : String) : Except PyErr (String × ℚ) :=
  match pySplit cmd with
  | [op, arg] =>
    match pyFloat arg with
    | some q => .ok (op, q)
    | none => .error .valueError
  | _ => .error .valueError

/-- A script line with the wrong token count (claim C8 calls this malformed). -/
def wrongTokenCount (cmd : String) : Prop :=
  (pySplit cmd).length ≠ 2

instance (cmd : String) : Decidable (wrongTokenCount cmd) := by
  unfold wrongTokenCount; infer_instance

/-- A script line whose two tokens have a non-numeric argument (the other
malformed shape of claim C8). -/
def nonNumericArg (cmd : String) : Prop :=
  ∃ op arg, pySplit cmd = [op, arg] ∧ pyFloat arg = none

/-- Source `key_update(idx, state)`: `self._state[idx].pressed = state` then
`self._last_press = (idx, state)`.  The dict lookup with a float index finds
the integer key it equals, and raises `KeyError` when there is none. -/
def keyUpdate (keys : List KeyState) (idx : ℚ) (st : Bool) :
    Except PyErr (List KeyState) :=
  if h : idx.den = 1 ∧ 0 ≤ idx.num ∧ idx.num < (keys.length : ℤ) then
    (setPressed (keys.get ⟨idx.num.toNat, by omega⟩) (.bool st)).map
      (fun ks => keys.set idx.num.toNat ks)
  else
    .error .keyError

/-- The scheduler-visible actions a call performs: cooperative sleeps. -/
inductive SimAction
  | sleep (secs : ℚ)
deriving DecidableEq, Repr

/-- How a call to `async_wait` ends: a returned value (Python returns `None`
when the command word is not sleep/down/up) or a raised exception. -/
inductive SimRet
  | ret (v : Option (ℚ × Bool))
  | raise (e : PyErr)
deriving DecidableEq, Repr

/-- The mutable state of a SIMULATED `KeyInterface` touched by `async_wait`:
`_script`, `_script_position`, the registry `_state`, `_last_press`, plus a
virtual wall clock advanced by the sleeps. -/
structure SimState where
  script : List String
  pos : ℕ
  keys : List KeyState
  lastPress : Option (ℚ × Bool)
  now : ℚ
deriving DecidableEq, Repr

/-- The large finite sleep the source performs once the script is exhausted
(`await asyncio.sleep(99999999)`). -/
def bigSleep : ℚ := 99999999

/-- The body of `async_wait` for `Implementation.SIMULATED`, with fuel for the
recursion through `sleep` commands (each recursion advances `pos`, so
`script.length + 1 - pos` fuel always suffices; fuel 0 is only reachable with
the cursor past the script, where the code behaves as in the exhausted
branch).  Once the cursor has exhausted the script the code logs, sleeps
`bigSleep` seconds, and then `self._script[self._script_position]` raises an
`IndexError`. -/
def simGo : ℕ → SimState → List SimAction × SimState × SimRet
  | 0, s => ([.sleep bigSleep], s, .raise .indexError)
  | fuel + 1, s =>
    if h : s.script.length ≤ s.pos then
      ([.sleep bigSleep], s, .raise .indexError)
    else
      let cmd := s.script.get ⟨s.pos, by omega⟩
      let s1 : SimState := { s with pos := s.pos + 1 }
      match parseCmd cmd with
      | .error e => ([], s1, .raise e)
      | .ok (op, arg) =>
        if op = "sleep" then
          let s2 : SimState := { s1 with now := s1.now + arg }
          let r := simGo fuel s2
          (.sleep arg :: r.1, r.2)
        else if op = "down" then
          match keyUpdate s1.keys arg true with
          | .error e => ([], s1, .raise e)
          | .ok ks =>
            ([], { s1 with keys := ks, lastPress := some (arg, true) },
              .ret (some (arg, true)))
        else if op = "up" then
          match keyUpdate s1.keys arg false with
          | .error e => ([], s1, .raise e)
          | .ok ks =>
            ([], { s1 with keys := ks, lastPress := some (arg, false) },
              .ret (some (arg, false)))
        else
          ([], s1, .ret none)

/-- One call to `async_wait` on a SIMULATED interface: the sleeps performed,
the state on exit, and the outcome. -/
def simAsyncWait (s : SimState) : List SimAction × SimState × SimRet :=
  simGo (s.script.length + 1 - s.pos) s

/-- State after `KeyInterface(...).setup(keycount, script)` for a SIMULATED interface. -/
def simSetup (keycount : ℕ) (script : List String) : SimState :=
  { script := script, pos := 0, keys := setupRegistry keycount,
    lastPress := none, now := 0 }

/-- Total seconds slept during a call. -/
def totalSleep (l : List SimAction) : ℚ :=
  (l.map (fun a => match a with | .sleep q => q)).sum

/-- Specification-side reading of "suspends indefinitely": the suspension
outlasts every finite bound. -/
def specSuspendsIndefinitely (l : List SimAction) : Prop :=
  ∀ B : ℚ, B < totalSleep l

/-- The items that one iteration of `KeySequenceListener.produce` puts on the
queue when driven by one `async_wait` call on the simulated source: nothing
when `async_wait` raises (the exception propagates before `q.put`), nothing
when it returns `None` (then `keypress[1]` raises a `TypeError`), and the
classification result otherwise. -/
def simPublished (listenFor : List KeySequence) (tl : List (Option TLEntry))
    (s : SimState) (tCls tPush : ℚ) : List (Option (ℤ × KeySequence)) :=
  match (simAsyncWait s).2.2 with
  | .raise _ => []
  | .ret Option.none => []
  | .ret (some kp) =>
    match produceStep listenFor tl kp tCls tPush with
    | .error _ => []
    | .ok (item, _) => [item]

/-! ## Helper lemmas -/

/-- The head of a filtered list is the first element satisfying the
predicate: `key_history[0]` agrees with a direct most-recent-first search. -/
theorem filter_head_eq_find {α : Type} (p : α → Bool) (l : List α) :
    (l.filter p).head? = l.find? p := by
  induction l with
  | nil => rfl
  | cons a t ih =>
    cases h : p a with
    | true => simp [List.filter_cons, h, List.find?_cons_of_pos]
    | false => simp [List.filter_cons, h, List.find?_cons_of_neg, ih]

/-- Characterisation of one produce iteration on a release event: the code
classifies from the most recent timeline entry matching the key (with any
pressed flag), raising an `IndexError` when there is none. -/
theorem produceStep_release (lf : List KeySequence) (tl : List (Option TLEntry))
    (k tCls tPush : ℚ) :
    produceStep lf tl (k, false) tCls tPush =
      match mostRecentForKey tl k with
      | Option.none => .error .indexError
      | some e =>
        .ok (some (pyTrunc k,
            if 500 < (tCls - e.1) * 1000 ∧ KeySequence.HOLD ∈ lf then
              KeySequence.HOLD
            else
              KeySequence.SINGLE),
          tlPush (tPush, (k, false)) tl) := by
  unfold produceStep mostRecentForKey
  rw [← filter_head_eq_find]
  cases hl : (tl.filterMap id).filter (fun kp => kp.2.1 == k) with
  | nil => simp [hl]
  | cons a t =>
    simp [hl]
    split <;> rfl

/-- Published item on a classified release: determined by the most recent
matching timeline entry, with the strict 500ms threshold and the HOLD
membership test. -/
theorem stepOut_release (lf : List KeySequence) (tl : List (Option TLEntry))
    (k tCls tPush : ℚ) (e : TLEntry)
    (hfind : mostRecentForKey tl k = some e) :
    stepOut (produceStep lf tl (k, false) tCls tPush)
      = .ok (some (pyTrunc k,
          if 500 < (tCls - e.1) * 1000 ∧ KeySequence.HOLD ∈ lf then
            KeySequence.HOLD
          else
            KeySequence.SINGLE)) := by
  unfold stepOut
  rw [produceStep_release, hfind]
  rfl

/-- On a press event the iteration publishes the empty marker and records the
transition. -/
theorem produceStep_press (lf : List KeySequence) (tl : List (Option TLEntry))
    (k tCls tPush : ℚ) :
    produceStep lf tl (k, true) tCls tPush =
      .ok (none, tlPush (tPush, (k, true)) tl) := rfl

/-- A push keeps the surviving old entries unchanged in place. -/
theorem tlPush_cons (e : TLEntry) (d : List (Option TLEntry)) :
    tlPush e d = some e :: d.take 49 := rfl

/-- Closed form for a burst of pushes into a full 50-slot timeline. -/
theorem pushAll_eq (es : List TLEntry) :
    ∀ d : List (Option TLEntry), d.length = 50 →
      pushAll es d = ((es.reverse.map some) ++ d).take 50 := by
  induction es with
  | nil =>
    intro d hd
    simp only [pushAll, List.foldl_nil, List.reverse_nil, List.map_nil,
      List.nil_append]
    rw [← hd, List.take_length]
  | cons e es ih =>
    intro d hd
    have hlen : (tlPush e d).length = 50 := by
      rw [tlPush_cons]
      simp [List.length_take, hd]
    have step : pushAll (e :: es) d = pushAll es (tlPush e d) := rfl
    rw [step, ih (tlPush e d) hlen, tlPush_cons]
    rw [List.reverse_cons, List.map_append, List.append_assoc]
    simp only [List.map_cons, List.map_nil, List.singleton_append]
    rw [List.take_append_eq_append_take, List.take_append_eq_append_take]
    congr 1
    rcases Nat.eq_zero_or_pos (50 - (es.reverse.map some).length) with h0 | hpos
    · rw [h0]
      simp
    · obtain ⟨m, hm⟩ : ∃ m, 50 - (es.reverse.map some).length = m + 1 :=
        ⟨50 - (es.reverse.map some).length - 1, by omega⟩
      rw [hm, List.take_succ_cons, List.take_succ_cons, List.take_take]
      have hmin : min m 49 = m := by omega
      rw [hmin]

/-- A malformed script line makes `(op, arg) = cmd.split(); arg = float(arg)`
raise a `ValueError`. -/
theorem malformed_parseCmd (cmd : String)
    (hm : wrongTokenCount cmd ∨ nonNumericArg cmd) :
    parseCmd cmd = .error .valueError := by
  unfold parseCmd
  rcases hm with h | ⟨op, arg, heq, hfl⟩
  · unfold wrongTokenCount at h
    cases hl : pySplit cmd with
    | nil => rfl
    | cons a t =>
      cases t with
      | nil => rfl
      | cons b t2 =>
        cases t2 with
        | nil => rw [hl] at h; simp at h
        | cons c t3 => rfl
  · rw [heq]
    simp [hfl]

/-- A call to the simulated `async_wait` with the cursor at or past the end of
the script: log, sleep `bigSleep` seconds, then raise `IndexError` from the
out-of-range `self._script[self._script_position]`. -/
theorem simAsyncWait_exhausted (s : SimState)
    (h : s.script.length ≤ s.pos) :
    simAsyncWait s = ([.sleep bigSleep], s, .raise .indexError) := by
  unfold simAsyncWait
  cases hf : s.script.length + 1 - s.pos with
  | zero => rfl
  | succ f =>
    unfold simGo
    rw [dif_pos h]

/-! ## Claim C1 -/

/-- Claim C1 as stated is false: with Interest Set `[HOLD]`, a release whose
press was instantaneous (HOLD rule does not fire) is published as
`(0, SINGLE)` even though SINGLE is not in the Interest Set, instead of the
empty marker. -/
theorem c1_counterexample :
    stepOut (produceStep [KeySequence.HOLD] (tlPush (0, (0, true)) tlInit)
        (0, false) 0 0)
      = .ok (some (0, KeySequence.SINGLE))
    ∧ KeySequence.SINGLE ∉ [KeySequence.HOLD]
    ∧ ¬(500 < ((0 : ℚ) - 0) * 1000 ∧ KeySequence.HOLD ∈ [KeySequence.HOLD]) :=
  ⟨by decide!, by decide!, by decide!⟩

/-- Claim C1 (corrected): on every classified release where the HOLD rule
does not fire, `(key_index, SINGLE)` is emitted regardless of whether SINGLE
is in the Interest Set; the empty marker is published exactly for press
events. -/
theorem c1_single_fallthrough (lf : List KeySequence)
    (tl : List (Option TLEntry)) (k tCls tPush : ℚ) (e : TLEntry)
    (hfind : mostRecentForKey tl k = some e)
    (hnot : ¬(500 < (tCls - e.1) * 1000 ∧ KeySequence.HOLD ∈ lf)) :
    stepOut (produceStep lf tl (k, false) tCls tPush)
      = .ok (some (pyTrunc k, KeySequence.SINGLE))
    ∧ stepOut (produceStep lf tl (k, true) tCls tPush) = .ok none := by
  constructor
  · unfold stepOut
    rw [produceStep_release, hfind]
    simp [if_neg hnot, Except.map]
  · rfl

/-- Witness for C1: the corrected statement evaluated on the counterexample
input. -/
theorem c1_single_fallthrough_witness :
    mostRecentForKey (tlPush (0, (0, true)) tlInit) 0 = some (0, (0, true))
    ∧ ¬(500 < ((0 : ℚ) - 0) * 1000 ∧ KeySequence.HOLD ∈ [KeySequence.HOLD])
    ∧ (stepOut (produceStep [KeySequence.HOLD] (tlPush (0, (0, true)) tlInit)
          (0, false) 0 0)
        = .ok (some (pyTrunc 0, KeySequence.SINGLE))
      ∧ stepOut (produceStep [KeySequence.HOLD] (tlPush (0, (0, true)) tlInit)
          (0, true) 0 0) = .ok none) :=
  ⟨by decide!, by decide!,
    c1_single_fallthrough [KeySequence.HOLD] (tlPush (0, (0, true)) tlInit)
      0 0 0 (0, (0, true)) (by decide!) (by decide!)⟩

/-! ## Claim C2 -/

/-- Claim C2 is a code bug: a release of key 0 with no prior entry for key 0
in the timeline raises an `IndexError` (from `key_history[0]` on an empty
list) instead of publishing the empty marker. -/
theorem c2_release_without_press_raises :
    produceStep [KeySequence.SINGLE] tlInit (0, false) 0 0
      = .error .indexError
    ∧ mostRecentForKey tlInit 0 = none :=
  ⟨by decide!, by decide!⟩

/-! ## Claim C3 -/

/-- Claim C3 as stated is false: with the timeline holding a release of key 0
at t=10 above a press of key 0 at t=0, a further release at t=10.3 is
classified from the RELEASE entry (duration 300ms, giving SINGLE) even though
the most recent pressed=true entry is the press at t=0, whose duration
10300ms with HOLD in the Interest Set would give HOLD. -/
theorem c3_counterexample :
    specMostRecentPressed
        (tlPush (10, (0, false)) (tlPush (0, (0, true)) tlInit)) 0
      = some (0, (0, true))
    ∧ 500 < (((103 : ℚ)/10) - 0) * 1000
    ∧ KeySequence.HOLD ∈ [KeySequence.SINGLE, KeySequence.HOLD]
    ∧ stepOut (produceStep [KeySequence.SINGLE, KeySequence.HOLD]
        (tlPush (10, (0, false)) (tlPush (0, (0, true)) tlInit))
        (0, false) ((103 : ℚ)/10) ((103 : ℚ)/10))
      = .ok (some (0, KeySequence.SINGLE)) :=
  ⟨by decide!, by decide!, by decide!, by decide!⟩

/-- Claim C3 (corrected): the press duration is computed from the timestamp
of the most recent Timeline Buffer entry for key k REGARDLESS of its pressed
flag, searched most-recent-first before the release itself is recorded. -/
theorem c3_duration_from_latest_entry (lf : List KeySequence)
    (tl : List (Option TLEntry)) (k tCls tPush : ℚ) (e : TLEntry)
    (hfind : mostRecentForKey tl k = some e) :
    stepOut (produceStep lf tl (k, false) tCls tPush)
      = .ok (some (pyTrunc k,
          if 500 < (tCls - e.1) * 1000 ∧ KeySequence.HOLD ∈ lf then
            KeySequence.HOLD
          else
            KeySequence.SINGLE)) :=
  stepOut_release lf tl k tCls tPush e hfind

/-- Witness for C3: the corrected statement evaluated on the counterexample
input (where the mixed-flag entry decides the outcome). -/
theorem c3_duration_from_latest_entry_witness :
    mostRecentForKey
        (tlPush (10, (0, false)) (tlPush (0, (0, true)) tlInit)) 0
      = some (10, (0, false))
    ∧ stepOut (produceStep [KeySequence.SINGLE, KeySequence.HOLD]
        (tlPush (10, (0, false)) (tlPush (0, (0, true)) tlInit))
        (0, false) ((103 : ℚ)/10) ((103 : ℚ)/10))
      = .ok (some (pyTrunc 0,
          if 500 < (((103 : ℚ)/10) - (10 : ℚ)) * 1000
              ∧ KeySequence.HOLD ∈ [KeySequence.SINGLE, KeySequence.HOLD] then
            KeySequence.HOLD
          else
            KeySequence.SINGLE)) :=
  ⟨by decide!,
    c3_duration_from_latest_entry [KeySequence.SINGLE, KeySequence.HOLD]
      (tlPush (10, (0, false)) (tlPush (0, (0, true)) tlInit))
      0 ((103 : ℚ)/10) ((103 : ℚ)/10) (10, (0, false)) (by decide!)⟩

/-! ## Claim C4 -/

/-- Claim C4: on a classified release with HOLD in the Interest Set,
`(key_index, HOLD)` is emitted iff the computed press duration in
milliseconds is strictly greater than 500, and a duration of exactly 500ms
classifies as SINGLE. -/
theorem c4_hold_threshold (lf : List KeySequence)
    (tl : List (Option TLEntry)) (k tCls tPush : ℚ) (e : TLEntry)
    (hHold : KeySequence.HOLD ∈ lf)
    (hfind : mostRecentForKey tl k = some e) :
    (stepOut (produceStep lf tl (k, false) tCls tPush)
        = .ok (some (pyTrunc k, KeySequence.HOLD))
      ↔ 500 < (tCls - e.1) * 1000)
    ∧ ((tCls - e.1) * 1000 = 500 →
        stepOut (produceStep lf tl (k, false) tCls tPush)
          = .ok (some (pyTrunc k, KeySequence.SINGLE))) := by
  have hstep := stepOut_release lf tl k tCls tPush e hfind
  constructor
  · constructor
    · intro hout
      by_contra hdur
      rw [hstep, if_neg (fun hc => hdur hc.1)] at hout
      simp at hout
    · intro hdur
      rw [hstep, if_pos ⟨hdur, hHold⟩]
  · intro h500
    rw [hstep, if_neg (fun hc => by rw [h500] at hc; exact lt_irrefl 500 hc.1)]

/-- Witness for C4: a 600ms press with Interest Set `[HOLD]` classifies as
HOLD. -/
theorem c4_hold_threshold_witness :
    KeySequence.HOLD ∈ [KeySequence.HOLD]
    ∧ mostRecentForKey (tlPush (0, (0, true)) tlInit) 0 = some (0, (0, true))
    ∧ ((stepOut (produceStep [KeySequence.HOLD] (tlPush (0, (0, true)) tlInit)
          (0, false) ((3 : ℚ)/5) ((3 : ℚ)/5))
        = .ok (some (pyTrunc 0, KeySequence.HOLD))
      ↔ 500 < (((3 : ℚ)/5) - 0) * 1000)
      ∧ ((((3 : ℚ)/5) - (0 : ℚ)) * 1000 = 500 →
        stepOut (produceStep [KeySequence.HOLD] (tlPush (0, (0, true)) tlInit)
            (0, false) ((3 : ℚ)/5) ((3 : ℚ)/5))
          = .ok (some (pyTrunc 0, KeySequence.SINGLE)))) :=
  ⟨by decide!, by decide!,
    c4_hold_threshold [KeySequence.HOLD] (tlPush (0, (0, true)) tlInit)
      0 ((3 : ℚ)/5) ((3 : ℚ)/5) (0, (0, true)) (by decide!) (by decide!)⟩

/-! ## Claim C5 -/

/-- Claim C5: the Timeline Buffer holds at most 50 entries; after pushing 51
entries (`e` then `rest` of length 50) the first push `e` is absent (when not
re-pushed later) and the newest 50 are present in most-recent-first order;
a push leaves the surviving old entries unchanged in place. -/
theorem c5_timeline_capacity (es : List TLEntry) (e : TLEntry)
    (rest : List TLEntry) (d : List (Option TLEntry))
    (h1 : rest.length = 50) (h2 : e ∉ rest) :
    countSome (pushAll es tlInit) ≤ 50
    ∧ pushAll (e :: rest) tlInit = rest.reverse.map some
    ∧ some e ∉ pushAll (e :: rest) tlInit
    ∧ tlPush e d = some e :: d.take 49 := by
  have hinit : tlInit.length = 50 := by simp [tlInit]
  have hfull : pushAll (e :: rest) tlInit = rest.reverse.map some := by
    rw [pushAll_eq (e :: rest) tlInit hinit]
    rw [List.reverse_cons, List.map_append, List.append_assoc]
    have hA : ((rest.reverse.map some : List (Option TLEntry))).length = 50 := by
      simp [h1]
    rw [List.take_append_eq_append_take, hA]
    simp [h1]
  refine ⟨?_, hfull, ?_, tlPush_cons e d⟩
  · rw [pushAll_eq es tlInit hinit]
    calc countSome (((es.reverse.map some) ++ tlInit).take 50)
        ≤ (((es.reverse.map some) ++ tlInit).take 50).length :=
          List.length_filterMap_le _ _
      _ ≤ 50 := by simp [List.length_take]
  · rw [hfull]
    intro hmem
    rcases List.mem_map.mp hmem with ⟨x, hx, hxe⟩
    cases hxe
    exact h2 (List.mem_reverse.mp hx)

/-- Witness for C5: 51 concrete pushes into a fresh timeline. -/
theorem c5_timeline_capacity_witness :
    (List.replicate 50 (((0 : ℚ), ((0 : ℚ), true)) : TLEntry)).length = 50
    ∧ (((1 : ℚ), ((1 : ℚ), true)) : TLEntry)
        ∉ List.replicate 50 (((0 : ℚ), ((0 : ℚ), true)) : TLEntry)
    ∧ (countSome (pushAll [] tlInit) ≤ 50
      ∧ pushAll ((((1 : ℚ), ((1 : ℚ), true)) : TLEntry)
            :: List.replicate 50 (((0 : ℚ), ((0 : ℚ), true)) : TLEntry)) tlInit
          = (List.replicate 50 (((0 : ℚ), ((0 : ℚ), true)) : TLEntry)).reverse.map some
      ∧ some (((1 : ℚ), ((1 : ℚ), true)) : TLEntry)
          ∉ pushAll ((((1 : ℚ), ((1 : ℚ), true)) : TLEntry)
              :: List.replicate 50 (((0 : ℚ), ((0 : ℚ), true)) : TLEntry)) tlInit
      ∧ tlPush (((1 : ℚ), ((1 : ℚ), true)) : TLEntry) []
          = some (((1 : ℚ), ((1 : ℚ), true)) : TLEntry)
              :: ([] : List (Option TLEntry)).take 49) :=
  ⟨by decide!, by decide!,
    c5_timeline_capacity [] ((1 : ℚ), ((1 : ℚ), true))
      (List.replicate 50 ((0 : ℚ), ((0 : ℚ), true))) []
      (by decide!) (by decide!)⟩

/-! ## Claim C6 -/

/-- Claim C6 is a code bug: assigning the integer 1 (not a boolean) to the
`pressed` field of registry key 0 succeeds (because Python `1 in
(True, False)` is true by numeric equality) and the next read returns the
integer 1, where the claim requires a validation failure. -/
theorem c6_pressed_accepts_int_one :
    (regSetPressed (setupRegistry 3) 0 (.int 1)).bind
        (fun r => regReadPressed r 0)
      = .ok (.int 1)
    ∧ isBool (.int 1) = false :=
  ⟨by decide!, rfl⟩

/-! ## Claim C7 -/

/-- Evaluation of format(n, 02x) on every channel value below 256. -/
theorem format02x_spec : ∀ n : ℕ, n < 256 → format02x ((n : ℤ)) = ⟨specHex2 n⟩ := by
  decide!

/-- Claim C7: for channels in [0,255] the colour code is the 6-character
lowercase zero-padded hex concatenation of r, g, b, and `is_lit` is false iff
all three channels are 0. -/
theorem c7_colourcode_hex (r g b : ℕ) (hr : r < 256) (hg : g < 256)
    (hb : b < 256) :
    (KeyState.colourcode
        { pressed := .bool false, r := (r : ℤ), g := (g : ℤ), b := (b : ℤ) }).data
      = specHex2 r ++ specHex2 g ++ specHex2 b
    ∧ (KeyState.colourcode
        { pressed := .bool false, r := (r : ℤ), g := (g : ℤ), b := (b : ℤ) }).length
      = 6
    ∧ (KeyState.is_lit
          { pressed := .bool false, r := (r : ℤ), g := (g : ℤ), b := (b : ℤ) }
        = false
      ↔ (r = 0 ∧ g = 0 ∧ b = 0)) := by
  have hdata : (KeyState.colourcode
      { pressed := .bool false, r := (r : ℤ), g := (g : ℤ), b := (b : ℤ) }).data
      = specHex2 r ++ specHex2 g ++ specHex2 b := by
    unfold KeyState.colourcode
    rw [format02x_spec r hr, format02x_spec g hg, format02x_spec b hb]
    rfl
  refine ⟨hdata, ?_, ?_⟩
  · have : (KeyState.colourcode
        { pressed := .bool false, r := (r : ℤ), g := (g : ℤ), b := (b : ℤ) }).length
        = (specHex2 r ++ specHex2 g ++ specHex2 b).length := by
      rw [String.length, hdata]
    rw [this]
    simp [specHex2]
  · have hlit : (KeyState.is_lit
        { pressed := .bool false, r := (r : ℤ), g := (g : ℤ), b := (b : ℤ) }
          = false)
        ↔ ((r : ℤ) = (g : ℤ) ∧ (g : ℤ) = (b : ℤ) ∧ (b : ℤ) = 0) := by
      unfold KeyState.is_lit
      dsimp only
      split
      · rename_i hc
        simpa using hc
      · rename_i hc
        simpa using hc
    rw [hlit]
    omega

/-- Witness for C7: channels (171, 205, 239) render as "abcdef" and light the
key. -/
theorem c7_colourcode_hex_witness :
    (171 < 256 ∧ 205 < 256 ∧ 239 < 256)
    ∧ ((KeyState.colourcode
          { pressed := .bool false, r := (171 : ℤ), g := (205 : ℤ), b := (239 : ℤ) }).data
        = specHex2 171 ++ specHex2 205 ++ specHex2 239
      ∧ (KeyState.colourcode
          { pressed := .bool false, r := (171 : ℤ), g := (205 : ℤ), b := (239 : ℤ) }).length
        = 6
      ∧ (KeyState.is_lit
            { pressed := .bool false, r := (171 : ℤ), g := (205 : ℤ), b := (239 : ℤ) }
          = false
        ↔ (171 = 0 ∧ 205 = 0 ∧ 239 = 0))) :=
  ⟨⟨by decide!, by decide!, by decide!⟩,
    c7_colourcode_hex 171 205 239 (by decide!) (by decide!) (by decide!)⟩

/-! ## Claim C8 -/

/-- Claim C8: executing a malformed script line (wrong token count or
non-numeric argument) raises a `ValueError` at the point of execution: no
sleep is performed, no transition is returned, and the state changes only by
the already-performed cursor advance — registry, last-press mailbox and clock
are untouched (no silent skipping, no partial application). -/
theorem c8_malformed_line_fails (s : SimState) (cmd : String)
    (hc : s.script.get? s.pos = some cmd)
    (hm : wrongTokenCount cmd ∨ nonNumericArg cmd) :
    simAsyncWait s = ([], { s with pos := s.pos + 1 }, .raise .valueError) := by
  have hlt : s.pos < s.script.length := by
    by_contra hle
    rw [List.get?_eq_none.mpr (le_of_not_lt hle)] at hc
    cases hc
  have hget : ∀ hh : s.pos < s.script.length, s.script.get ⟨s.pos, hh⟩ = cmd := by
    intro hh
    rw [List.get?_eq_get hh] at hc
    exact Option.some.inj hc
  obtain ⟨f, hf⟩ : ∃ f, s.script.length + 1 - s.pos = f + 1 :=
    ⟨s.script.length - s.pos, by omega⟩
  unfold simAsyncWait
  rw [hf]
  unfold simGo
  rw [dif_neg (by omega : ¬ s.script.length ≤ s.pos)]
  simp only [hget]
  rw [malformed_parseCmd cmd hm]

/-- Witness for C8: the one-token line "down" fails with a `ValueError` and
advances only the cursor. -/
theorem c8_malformed_line_fails_witness :
    (simSetup 3 ["down"]).script.get? (simSetup 3 ["down"]).pos = some "down"
    ∧ wrongTokenCount "down"
    ∧ simAsyncWait (simSetup 3 ["down"])
        = ([], { simSetup 3 ["down"] with pos := (simSetup 3 ["down"]).pos + 1 },
          .raise .valueError) :=
  ⟨by decide!, by decide!,
    c8_malformed_line_fails (simSetup 3 ["down"]) "down" (by decide!)
      (Or.inl (by decide!))⟩

/-! ## Claim C9 -/

/-- A SIMULATED interface state whose one-command script is exhausted (the
cursor is already past the single command). -/
def exhaustedState : SimState :=
  { script := ["up 0"], pos := 1, keys := setupRegistry 3,
    lastPress := none, now := 0 }

/-- Claim C9 as stated is false: at an exhausted cursor the poll does NOT
suspend indefinitely — its single cooperative sleep is the finite 99999999
seconds, after which the call completes by raising an `IndexError`. -/
theorem c9_counterexample :
    ¬ specSuspendsIndefinitely (simAsyncWait exhaustedState).1
    ∧ (simAsyncWait exhaustedState).2.2 = .raise .indexError := by
  constructor
  · intro h
    have h2 := h (10 ^ 8)
    have h3 : totalSleep (simAsyncWait exhaustedState).1 = 99999999 := by
      decide!
    rw [h3] at h2
    exact absurd h2 (by decide!)
  · decide!

/-- Claim C9 (corrected): once the cursor has exhausted the command list,
every subsequent poll sleeps the finite 99999999 seconds and then raises an
`IndexError`; it never returns a transition, so the producer publishes
nothing further (the exception propagates before any queue put). -/
theorem c9_exhausted_sleeps_then_raises (s : SimState) (lf : List KeySequence)
    (tl : List (Option TLEntry)) (tCls tPush : ℚ)
    (h : s.script.length ≤ s.pos) :
    simAsyncWait s = ([.sleep bigSleep], s, .raise .indexError)
    ∧ simPublished lf tl s tCls tPush = [] := by
  have h1 := simAsyncWait_exhausted s h
  refine ⟨h1, ?_⟩
  unfold simPublished
  rw [h1]

/-- Witness for C9: a one-command script with the cursor already past it. -/
theorem c9_exhausted_sleeps_then_raises_witness :
    exhaustedState.script.length ≤ exhaustedState.pos
    ∧ (simAsyncWait exhaustedState
        = ([.sleep bigSleep], exhaustedState, .raise .indexError)
      ∧ simPublished [KeySequence.SINGLE] tlInit exhaustedState 0 0 = []) :=
  ⟨by decide!,
    c9_exhausted_sleeps_then_raises exhaustedState
      [KeySequence.SINGLE] tlInit 0 0 (by decide!)⟩

/-! ## Claim C10 -/

/-- Claim C10 as stated is false on one point: for `v = object` (a type), the
setter raises a `TypeError` (from the comparison `val < 0`, since
`isinstance(int, object)` is `True`), not the `LEDInterfaceError` the claim
assigns to every type-valued `v`. -/
theorem c10_counterexample :
    LEDCommand.setR (LEDCommand.init (.int 0)) (.type .objectT)
      = .error .typeError
    ∧ isType (.type .objectT) = true
    ∧ PyErr.typeError ≠ PyErr.ledInterfaceError :=
  ⟨by decide!, rfl, by decide!⟩

/-- Claim C10 (corrected): every assignment through the r, g or b setter of
an LEDCommand raises — a `TypeError` when `v` is not a type or is a type of
which `int` is an instance (`object`, `type`), and an `LEDInterfaceError` for
every other type — so the stored fields are never changed through these
setters and keep their construction-time values. -/
theorem c10_setters_always_raise (c : LEDCommand) (v : PyVal) :
    LEDCommand.setR c v = .error (ledSetterErr v)
    ∧ LEDCommand.setG c v = .error (ledSetterErr v)
    ∧ LEDCommand.setB c v = .error (ledSetterErr v) := by
  refine ⟨?_, ?_, ?_⟩ <;>
    cases v with
    | type t => cases t <;> rfl
    | none => rfl
    | bool b => rfl
    | int n => rfl
    | float q => rfl
    | str s => rfl

end Asynckeybow
